import Mathlib

/-!
Shallow embedding of the `run_fastp` repository's three SLURM-script
generators, and proofs about them.

Sources embedded:
* `src/run_fastp/write_slurm.py` ("trim" script): discovers sample-name
  prefixes of `*.fastq.gz` files and writes an SBATCH array script.
* `src/star_alignment/write_slurm_alignment.py` ("align" script): discovers
  immediate subdirectories and writes an SBATCH array script with optional
  `--filter_index` and two-pass flags.
* `src/write_slurm.py` ("legacy" script): an abandoned draft whose entry
  point passes 5 arguments to a 7-parameter `main`, and whose body reads the
  never-defined name `count`.

Modelling conventions:
* A directory listing is a list of `Entry` (name, is-directory flag) in
  enumeration order; `Path.iterdir`, `Path.glob` and `os.walk(...)[1]` are
  read off this list.
* Python's `set(...)` is modelled by `List.dedup` (iteration order of a
  Python `set` is unspecified; the claims proved below about the trim script
  depend only on the set's extension and size, never on this order).
* The output file is `Option String` (`none` = file absent).  Each
  `open(output, "a")`/`write` inside the scripts' `try` block is one append
  operation; `appendWrites` executes them against an optional failure oracle
  `failAt` (the index of the first append that raises `IOError`;
  `none` = no failure), mirroring that a raised exception leaves the bytes
  already appended in place.
* The `except` handler prints its (literally braced, since the source string
  lacks an `f` prefix) message plus a traceback and re-raises; we model the
  diagnostic output as a one-entry log and the re-raise as an `err` outcome.
* Machine-level details (bytes vs str, UTF-8) are out of scope; identifiers
  and template text are `String`s.
-/

inductive PyErr where
  | fileNotFound
  | nameError
  | typeError
  | ioError
deriving DecidableEq

structure Entry where
  name : String
  isDir : Bool
deriving DecidableEq

structure FS where
  inputDirExists : Bool
  inputEntries : List Entry
  outputContents : Option String
deriving DecidableEq

/-- Observable state after a run: the output file and the diagnostic log. -/
structure WState where
  outputContents : Option String
  log : List String
deriving DecidableEq

inductive Outcome where
  | ok (st : WState)
  | err (e : PyErr) (st : WState)
deriving DecidableEq

/-- `pathlib.PurePath.stem`: the final component without its last suffix.
Python: `i = name.rfind('.'); name[:i] if 0 < i < len(name) - 1 else name`. -/
def rfindDot (cs : List Char) : Option Nat :=
  match cs.reverse.findIdx? (fun c => c = '.') with
  | none => none
  | some j => some (cs.length - 1 - j)

def stem (s : String) : String :=
  match rfindDot s.data with
  | none => s
  | some i => if 0 < i ∧ i < s.data.length - 1 then String.mk (s.data.take i) else s

/-- Python `s.split("_")[0]`: the characters before the first underscore. -/
def firstToken (s : String) : String :=
  String.mk (s.data.takeWhile (fun c => c ≠ '_'))

/-- `fnmatch`-style suffix test used for the glob pattern `*.fastq.gz`. -/
def strEndsWith (s suf : String) : Bool :=
  List.isPrefixOf suf.data.reverse s.data.reverse

/-- Python truthiness of an optional string (`None` and `""` are falsy). -/
def pyTruthy : Option String → Bool
  | none => false
  | some s => s != ""

/-- Python f-string rendering of an optional string (`None` prints as "None"). -/
def pyStr : Option String → String
  | none => "None"
  | some s => s

def concatAll : List String → String
  | [] => ""
  | s :: rest => s ++ concatAll rest

/-- `hay` contains `needle` as a contiguous substring. -/
def containsSubstr (hay needle : String) : Prop :=
  ∃ p q : String, hay = p ++ needle ++ q

/- Command-line configuration records (argparse always hands `main` strings;
the `mem: int` annotations in the sources are not enforced). -/

structure TrimConfig where
  input_folder : String
  output_folder : String
  email : String
  slurm_acct : String
  walltime : String
  mem : String
deriving DecidableEq

structure AlignConfig where
  input_folder : String
  output_folder : String
  aligner_type : String
  genome_idx : String
  filter_idx : Option String
  library : String
  two_pass : Bool
  emit_dedup : Option String
  email : String
  slurm_acct : String
  walltime : String
  mem : String
deriving DecidableEq

/- Fixed template text, byte-for-byte the `textwrap.dedent`-ed f-strings of
the sources, split exactly at the interpolation points (and additionally just
before `--array=0-`, so that the array directive can be addressed). -/

def hashRule : String :=
  "################################################################################"

def arrayEq0Dash : String := "--array=0-"

def trimHdr1 : String :=
  "#!/usr/bin/env bash\n#SBATCH --job-name=CUT_FASTP\n#SBATCH --mail-user="

def trimHdr2 : String :=
  "\n#SBATCH --mail-type=BEGIN,END,FAIL\n#SBATCH --output=CUT_FASTP_%u_%A_%a.out\n#SBATCH "

def trimHdr3 : String := "\n#SBATCH --account="

def trimHdr4 : String := "\n#SBATCH --time="

def trimHdr5 : String := "\n#SBATCH --mem="

def trimHdr6 : String :=
  "m\n#SBATCH --partition=standard\n#SBATCH --ntasks-per-node=1\n#SBATCH --nodes=1\n"
  ++ hashRule ++
  "\n# Edit the strings under \x27declare -a tasks=(\x27 to match your experiments.\n#\n# The #SBATCH --array variable above creates an array [0,1,2,3]. Change it so that the length\n# is how many jobs you need (same as number of strings under $tasks).\n#\n# This script is submitted that many times, but only one line from $tasks is\n# evaluated each time.\n#\n# For more info on #SBATCH variables, see https://arc.umich.edu/greatlakes/slurm-user-guide/\n# and https://slurm.schedmd.com/sbatch.html\n#\n# This requires a conda environment with samtools and pysam (RNA-STAR)\n# \n# To call this script:\n# sbatch write_slurm.sbatch\n"
  ++ hashRule ++
  "\n\nmodule purge\neval \"$(conda shell.bash hook)\"\nconda activate ~/miniconda3/envs/RNA-SEQ\n\ndeclare -a tasks=(\n"

/-- Header block of `src/run_fastp/write_slurm.py` (lines 45-83). -/
def trimHeader (cfg : TrimConfig) (numJobs : Int) : String :=
  trimHdr1 ++ cfg.email ++ trimHdr2 ++ arrayEq0Dash ++ toString numJobs ++
  trimHdr3 ++ cfg.slurm_acct ++ trimHdr4 ++ cfg.walltime ++ trimHdr5 ++ cfg.mem ++ trimHdr6

def alignHdr1 : String :=
  "#!/usr/bin/env bash\n#SBATCH --job-name=ALIGN\n#SBATCH --mail-user="

def alignHdr2 : String :=
  "\n#SBATCH --mail-type=BEGIN,END,FAIL\n#SBATCH --output=ALIGN_%u_%A_%a.out\n#SBATCH "

def alignHdr6 : String :=
  "m\n#SBATCH --partition=standard\n#SBATCH --cpus-per-task=8\n"
  ++ hashRule ++
  "\n# Edit the strings under \x27declare -a tasks=(\x27 to match your experiments.\n#\n# Recommend 1.5 hours per 30M read sample, 2.5 for 2-pass STAR.\n#\n# This requires a conda environment for genome alignment, edit to your named\n# version in the activate command.\n# \n# To call this script:\n# sbatch SBATCHSubArr-Align-STAR.sbatch\n"
  ++ hashRule ++
  "\n\nmodule purge\neval \"$(conda shell.bash hook)\"\nconda activate ~/miniconda3/envs/RNA-SEQ\n\ndeclare -a tasks=(\n"

/-- Header block of `src/star_alignment/write_slurm_alignment.py` (lines 37-69). -/
def alignHeader (cfg : AlignConfig) (numJobs : Int) : String :=
  alignHdr1 ++ cfg.email ++ alignHdr2 ++ arrayEq0Dash ++ toString numJobs ++
  trimHdr3 ++ cfg.slurm_acct ++ trimHdr4 ++ cfg.walltime ++ trimHdr5 ++ cfg.mem ++ alignHdr6

/-- `"\n)\neval $\x7btasks[$SLURM_ARRAY_TASK_ID]\x7d"`, appended by both scripts. -/
def sbatchTrailer : String :=
  "\n)\neval $\x7btasks[$SLURM_ARRAY_TASK_ID]\x7d"

/-- The except-handler's print text; the source lacks the `f` prefix so the
braces are literal. -/
def failMsg : String := "Failed to create SBATCH file: \x7be\x7d"

/- Task-line templates. -/

def trimTask1 : String := "\n\"python3 run_cutadapt_fastp.py --input "

def trimTask2 : String := " --output "

def trimTask3 : String := " -C 2 -U 12 -S "

def dquote : String := "\""

/-- One task line of the trim script (line 89 of the source). -/
def trimTask (cfg : TrimConfig) (name : String) : String :=
  trimTask1 ++ cfg.input_folder ++ trimTask2 ++ cfg.output_folder ++ trimTask3 ++ name ++ dquote

def alignTask1 : String := "\n\"python3 -u run_align.py --input "

def alignTask2 : String := " --output "

def alignTask3 : String := " --aligner "

def alignTask4 : String := " --index "

def alignTask5 : String := " -C 8 -L "

def alignTask6 : String := " -S "

def filterFlag : String := " --filter_index "

def twoPassFlagA : String := " -T "

def twoPassFlagB : String := "--emit_dedup_slurm "

def emptyStr : String := ""

/-- The unconditional part of an alignment task line (lines 77-79). -/
def alignTaskBase (cfg : AlignConfig) (sample_name : String) : String :=
  alignTask1 ++ cfg.input_folder ++ alignTask2 ++ cfg.output_folder ++
  alignTask3 ++ cfg.aligner_type ++ alignTask4 ++ cfg.genome_idx ++
  alignTask5 ++ cfg.library ++ alignTask6 ++ sample_name

/-- One task line of the alignment script (lines 77-87): the base string, then
`--filter_index` appended when `filter_idx` is truthy, then the two-pass
fragment appended when `two_pass` is set, then a closing quote. -/
def alignTask (cfg : AlignConfig) (sample_name : String) : String :=
  let task := alignTaskBase cfg sample_name
  let task := if pyTruthy cfg.filter_idx then task ++ (filterFlag ++ pyStr cfg.filter_idx) else task
  let task := if cfg.two_pass then task ++ (twoPassFlagA ++ twoPassFlagB ++ pyStr cfg.emit_dedup) else task
  task ++ dquote

/- Discovery. -/

def fastqSuffix : String := ".fastq.gz"

/-- Line 38-39 of the trim script:
`set([fastq.stem.split("_")[0] for fastq in start_dir.glob("*.fastq.gz")])`. -/
def trimSampleNames (fs : FS) : List String :=
  (((fs.inputEntries.map Entry.name).filter (fun n => strEndsWith n fastqSuffix)).map
    (fun n => firstToken (stem n))).dedup

/-- Line 40: `num_jobs = len(sample_names) - 1` (Python int, may be -1). -/
def trimNumJobs (fs : FS) : Int :=
  ((trimSampleNames fs).length : Int) - 1

/-- Line 33 of the alignment script:
`num_jobs = len(next(os.walk(start_dir))[1]) - 1` (subdirectory count). -/
def alignNumJobs (fs : FS) : Int :=
  (((fs.inputEntries.filter (fun e => e.isDir)).length : Int)) - 1

/-- The sequence of task-line writes performed by the trim script's loop
(lines 86-90), one per element of the sample-name set. -/
def trimWriteOps (cfg : TrimConfig) : List String → List String
  | [] => []
  | n :: rest => trimTask cfg n :: trimWriteOps cfg rest

/-- The sequence of task-line writes performed by the alignment script's loop
(lines 72-89): one write per `iterdir` entry that `is_dir()`, in order. -/
def alignWriteOps (cfg : AlignConfig) : List Entry → List String
  | [] => []
  | e :: rest =>
      if e.isDir then alignTask cfg (stem e.name) :: alignWriteOps cfg rest
      else alignWriteOps cfg rest

/-- Run a sequence of append operations against contents `c`.  `failAt` is the
index (counting from `k`) of the append that raises `IOError`; the error
carries the contents accumulated so far (partial writes are kept). -/
def appendWrites (failAt : Option Nat) : Nat → List String → String → Except (PyErr × String) String
  | _, [], c => Except.ok c
  | k, p :: rest, c =>
      if failAt = some k then Except.error (PyErr.ioError, c)
      else appendWrites failAt (k + 1) rest (c ++ p)

/-- Contents of the output file after the create-if-absent step (trim script
lines 42-83): the existing contents, or the freshly written header. -/
def trimInitContents (cfg : TrimConfig) (fs : FS) : String :=
  match fs.outputContents with
  | some c => c
  | none => trimHeader cfg (trimNumJobs fs)

def alignInitContents (cfg : AlignConfig) (fs : FS) : String :=
  match fs.outputContents with
  | some c => c
  | none => alignHeader cfg (alignNumJobs fs)

/-- All appends of the trim script's try block: the task lines, then the
closing trailer (lines 85-94). -/
def trimPieces (cfg : TrimConfig) (fs : FS) : List String :=
  trimWriteOps cfg (trimSampleNames fs) ++ [sbatchTrailer]

def alignPieces (cfg : AlignConfig) (fs : FS) : List String :=
  alignWriteOps cfg fs.inputEntries ++ [sbatchTrailer]

/-- `main` of `src/run_fastp/write_slurm.py`: existence check (raises
`FileNotFoundError` before any write), sample discovery, header creation if
the output is absent, then the appends of the try block; a raised `IOError`
is logged by the handler and re-raised. -/
def trimMain (cfg : TrimConfig) (failAt : Option Nat) (fs : FS) : Outcome :=
  if fs.inputDirExists then
    match appendWrites failAt 0 (trimPieces cfg fs) (trimInitContents cfg fs) with
    | Except.ok c => Outcome.ok ⟨some c, []⟩
    | Except.error (e, c) => Outcome.err e ⟨some c, [failMsg]⟩
  else Outcome.err PyErr.fileNotFound ⟨fs.outputContents, []⟩

/-- `main` of `src/star_alignment/write_slurm_alignment.py`. -/
def alignMain (cfg : AlignConfig) (failAt : Option Nat) (fs : FS) : Outcome :=
  if fs.inputDirExists then
    match appendWrites failAt 0 (alignPieces cfg fs) (alignInitContents cfg fs) with
    | Except.ok c => Outcome.ok ⟨some c, []⟩
    | Except.error (e, c) => Outcome.err e ⟨some c, [failMsg]⟩
  else Outcome.err PyErr.fileNotFound ⟨fs.outputContents, []⟩

/-- Parameter count of `main` in `src/write_slurm.py` line 7:
`(input_folder, output_folder, email, slurm_acct, walltime, mem, fa)`. -/
def legacyMainParamCount : Nat := 7

/-- Argument count at the call site, line 110:
`main(args.email, args.slurm_acct, args.walltime, args.mem, args.fa)`. -/
def legacyEntryArgCount : Nat := 5

/-- `main` of `src/write_slurm.py`: after the directory-existence check (line
27-31) the next executed statement is `num_jobs = count - 1` (line 34) where
the name `count` is bound nowhere, so evaluation raises `NameError`; the
output file is first opened only at line 37, so nothing is written. -/
def legacyMain (fs : FS) : Outcome :=
  if fs.inputDirExists then Outcome.err PyErr.nameError ⟨fs.outputContents, []⟩
  else Outcome.err PyErr.fileNotFound ⟨fs.outputContents, []⟩

/-- The `__main__` entry of `src/write_slurm.py`: calling a 7-parameter
function with 5 positional arguments raises `TypeError` before the body of
`main` runs (before any filesystem access). -/
def legacyEntry (fs : FS) : Outcome :=
  if legacyEntryArgCount = legacyMainParamCount then legacyMain fs
  else Outcome.err PyErr.typeError ⟨fs.outputContents, []⟩
/- Concrete fixtures used by closed statements and witnesses. -/

def inF : String := "raw_fastqs"

def outF : String := "trimmed_reads"

def emF : String := "a@b.c"

def acF : String := "acct"

def wtF : String := "01:00:00"

def memF : String := "4000"

def tCfg : TrimConfig := ⟨inF, outF, emF, acF, wtF, memF⟩

def alnStar : String := "star"

def gidx : String := "idx"

def libRF : String := "RF"

def aCfg : AlignConfig := ⟨inF, outF, alnStar, gidx, none, libRF, true, none, emF, acF, wtF, memF⟩

def fsEmptyDir : FS := ⟨true, [], none⟩

def fq1 : String := "S1_L001_R1.fastq.gz"

def fq2 : String := "S1_L001_R2.fastq.gz"

def fq3 : String := "S2_L001_R1.fastq.gz"

def dirS1 : String := "S1"

def sS1 : String := "S1"

def sS2 : String := "S2"

def wfsT : FS := ⟨true, [⟨fq1, false⟩], none⟩

def wfsA : FS := ⟨true, [⟨dirS1, true⟩], none⟩

def arrayZeroNegOne : String := "--array=0--1"

/- Additional concrete fixtures. -/

def preC : String := "#OLDHEADER\n"

def fsNoDir : FS := ⟨false, [], some preC⟩

def cfs : FS := ⟨true, [⟨fq1, false⟩], some preC⟩

def cfsA : FS := ⟨true, [⟨dirS1, true⟩], some preC⟩

def fs5 : FS := ⟨true, [⟨fq1, false⟩, ⟨fq2, false⟩, ⟨fq3, false⟩], none⟩

def wfsA2 : FS := ⟨true, [⟨fq1, false⟩, ⟨dirS1, true⟩], none⟩

def flagS1 : String := "-S S1"

def flagS2 : String := "-S S2"

def pS1 : String :=
  "\n\"python3 run_cutadapt_fastp.py --input raw_fastqs --output trimmed_reads -C 2 -U 12 "

def dedupNoneNeedle : String := "--emit_dedup_slurm None"
/- Shared helper lemmas. -/

theorem concatAll_append (a b : List String) :
    concatAll (a ++ b) = concatAll a ++ concatAll b := by
  induction a with
  | nil => simp [concatAll, String.empty_append]
  | cons x xs ih => simp [concatAll, ih, String.append_assoc]

theorem dedup_toFinset (l : List String) : l.dedup.toFinset = l.toFinset := by
  ext a
  simp [List.mem_dedup]

theorem appendWrites_none (ps : List String) :
    ∀ (k : Nat) (c : String), appendWrites none k ps c = Except.ok (c ++ concatAll ps) := by
  induction ps with
  | nil => intro k c; simp [appendWrites, concatAll, String.append_empty]
  | cons p rest ih =>
      intro k c
      simp [appendWrites, ih (k + 1) (c ++ p), concatAll, String.append_assoc]

theorem appendWrites_fail (ps : List String) :
    ∀ (i k : Nat) (c : String), i < ps.length →
      appendWrites (some (k + i)) k ps c =
        Except.error (PyErr.ioError, c ++ concatAll (ps.take i)) := by
  induction ps with
  | nil => intro i k c h; exact absurd h (by simp)
  | cons p rest ih =>
      intro i k c h
      match i with
      | 0 => simp [appendWrites, concatAll, String.append_empty]
      | Nat.succ j =>
          have hk : k + (j + 1) = (k + 1) + j := by omega
          have hne : ¬ ((some (k + (j + 1)) : Option Nat) = some k) := by
            intro hc
            exact absurd (Option.some.inj hc) (by omega)
          have hj : j < rest.length := by
            simpa using Nat.lt_of_succ_lt_succ (by simpa using h)
          calc appendWrites (some (k + (j + 1))) k (p :: rest) c
              = appendWrites (some (k + (j + 1))) (k + 1) rest (c ++ p) := by
                simp [appendWrites, hne]
            _ = appendWrites (some ((k + 1) + j)) (k + 1) rest (c ++ p) := by rw [hk]
            _ = Except.error (PyErr.ioError, (c ++ p) ++ concatAll (rest.take j)) :=
                ih j (k + 1) (c ++ p) hj
            _ = Except.error (PyErr.ioError, c ++ concatAll ((p :: rest).take (j + 1))) := by
                simp [concatAll, String.append_assoc]

theorem trimWriteOps_eq_map (cfg : TrimConfig) (names : List String) :
    trimWriteOps cfg names = names.map (trimTask cfg) := by
  induction names with
  | nil => rfl
  | cons n rest ih => simp [trimWriteOps, ih]

theorem alignWriteOps_eq_filter_map (cfg : AlignConfig) (entries : List Entry) :
    alignWriteOps cfg entries =
      (entries.filter (fun e => e.isDir)).map (fun e => alignTask cfg (stem e.name)) := by
  induction entries with
  | nil => rfl
  | cons e rest ih =>
      by_cases h : e.isDir
      · simp [alignWriteOps, h, List.filter, ih]
      · simp [alignWriteOps, h, List.filter, ih]

/- Run-level characterisations of the two mains, shared by several proofs. -/

theorem trimMain_none_ok (cfg : TrimConfig) (fs : FS) (h : fs.inputDirExists = true) :
    trimMain cfg none fs =
      Outcome.ok ⟨some (trimInitContents cfg fs ++ concatAll (trimPieces cfg fs)), []⟩ := by
  simp [trimMain, h, appendWrites_none]

theorem alignMain_none_ok (cfg : AlignConfig) (fs : FS) (h : fs.inputDirExists = true) :
    alignMain cfg none fs =
      Outcome.ok ⟨some (alignInitContents cfg fs ++ concatAll (alignPieces cfg fs)), []⟩ := by
  simp [alignMain, h, appendWrites_none]

theorem trimMain_fail_at (cfg : TrimConfig) (fs : FS) (i : Nat)
    (h : fs.inputDirExists = true) (hi : i < (trimPieces cfg fs).length) :
    trimMain cfg (some i) fs =
      Outcome.err PyErr.ioError ⟨some (trimInitContents cfg fs ++
        concatAll ((trimPieces cfg fs).take i)), [failMsg]⟩ := by
  have h2 := appendWrites_fail (trimPieces cfg fs) i 0 (trimInitContents cfg fs) hi
  rw [Nat.zero_add] at h2
  simp [trimMain, h, h2]

theorem alignMain_fail_at (cfg : AlignConfig) (fs : FS) (i : Nat)
    (h : fs.inputDirExists = true) (hi : i < (alignPieces cfg fs).length) :
    alignMain cfg (some i) fs =
      Outcome.err PyErr.ioError ⟨some (alignInitContents cfg fs ++
        concatAll ((alignPieces cfg fs).take i)), [failMsg]⟩ := by
  have h2 := appendWrites_fail (alignPieces cfg fs) i 0 (alignInitContents cfg fs) hi
  rw [Nat.zero_add] at h2
  simp [alignMain, h, h2]

/-- C1: with an existing input directory holding zero discoverable work items
(no `*.fastq.gz` file for the trim script, no subdirectory for the alignment
script) and no pre-existing output file, neither builder raises any error:
each completes normally and writes a header whose array directive contains
the invalid text `--array=0--1` (num_jobs = 0 - 1 = -1).  This evaluates the
code at the failing input of the DataError claim. -/
theorem c1_zero_items_writes_invalid_array_bound :
    (trimMain tCfg none fsEmptyDir =
      Outcome.ok ⟨some (trimHeader tCfg (-1) ++ sbatchTrailer), []⟩) ∧
    containsSubstr (trimHeader tCfg (-1)) arrayZeroNegOne ∧
    (alignMain aCfg none fsEmptyDir =
      Outcome.ok ⟨some (alignHeader aCfg (-1) ++ sbatchTrailer), []⟩) ∧
    containsSubstr (alignHeader aCfg (-1)) arrayZeroNegOne := by
  refine ⟨rfl,
    ⟨trimHdr1 ++ tCfg.email ++ trimHdr2,
     trimHdr3 ++ tCfg.slurm_acct ++ trimHdr4 ++ tCfg.walltime ++ trimHdr5 ++ tCfg.mem ++ trimHdr6,
     ?_⟩,
    rfl,
    ⟨alignHdr1 ++ aCfg.email ++ alignHdr2,
     trimHdr3 ++ aCfg.slurm_acct ++ trimHdr4 ++ aCfg.walltime ++ trimHdr5 ++ aCfg.mem ++ alignHdr6,
     ?_⟩⟩ <;>
  · rw [show arrayZeroNegOne = arrayEq0Dash ++ toString (-1 : Int) from by decide]
    simp [trimHeader, alignHeader, String.append_assoc]

/-- C2: the legacy script `src/write_slurm.py` can never succeed and never
writes the output file: its entry point passes 5 arguments to the
7-parameter `main` (TypeError before anything runs); a direct call of `main`
that passes the directory check hits the undefined name `count` (NameError,
before the output file would be created); and every direct call errors with
the output file untouched. -/
theorem c2_legacy_script_always_fails (fs : FS) (h : fs.inputDirExists = true) :
    legacyEntry fs = Outcome.err PyErr.typeError ⟨fs.outputContents, []⟩ ∧
    legacyMain fs = Outcome.err PyErr.nameError ⟨fs.outputContents, []⟩ ∧
    (∀ fs2 : FS, ∃ e : PyErr, legacyMain fs2 = Outcome.err e ⟨fs2.outputContents, []⟩) ∧
    legacyEntryArgCount ≠ legacyMainParamCount := by
  refine ⟨by simp [legacyEntry, legacyEntryArgCount, legacyMainParamCount],
    by simp [legacyMain, h], ?_, by decide⟩
  intro fs2
  by_cases h2 : fs2.inputDirExists
  · exact ⟨PyErr.nameError, by simp [legacyMain, h2]⟩
  · exact ⟨PyErr.fileNotFound, by simp [legacyMain, h2]⟩

theorem c2_legacy_script_always_fails_witness :
    legacyEntry fsEmptyDir = Outcome.err PyErr.typeError ⟨fsEmptyDir.outputContents, []⟩ ∧
    legacyMain fsEmptyDir = Outcome.err PyErr.nameError ⟨fsEmptyDir.outputContents, []⟩ ∧
    (∀ fs2 : FS, ∃ e : PyErr, legacyMain fs2 = Outcome.err e ⟨fs2.outputContents, []⟩) ∧
    legacyEntryArgCount ≠ legacyMainParamCount :=
  c2_legacy_script_always_fails fsEmptyDir rfl

/-- C6: when the input directory does not exist, all three scripts raise
FileNotFoundError before any write, and the output file's prior state is
unchanged. -/
theorem c6_missing_input_dir_fails_before_write (cfgT : TrimConfig) (cfgA : AlignConfig)
    (fsT fsA fsL : FS) (fT fA : Option Nat)
    (hT : fsT.inputDirExists = false) (hA : fsA.inputDirExists = false)
    (hL : fsL.inputDirExists = false) :
    trimMain cfgT fT fsT = Outcome.err PyErr.fileNotFound ⟨fsT.outputContents, []⟩ ∧
    alignMain cfgA fA fsA = Outcome.err PyErr.fileNotFound ⟨fsA.outputContents, []⟩ ∧
    legacyMain fsL = Outcome.err PyErr.fileNotFound ⟨fsL.outputContents, []⟩ := by
  refine ⟨?_, ?_, ?_⟩
  · simp [trimMain, hT]
  · simp [alignMain, hA]
  · simp [legacyMain, hL]

theorem c6_missing_input_dir_fails_before_write_witness :
    trimMain tCfg none fsNoDir = Outcome.err PyErr.fileNotFound ⟨fsNoDir.outputContents, []⟩ ∧
    alignMain aCfg none fsNoDir = Outcome.err PyErr.fileNotFound ⟨fsNoDir.outputContents, []⟩ ∧
    legacyMain fsNoDir = Outcome.err PyErr.fileNotFound ⟨fsNoDir.outputContents, []⟩ :=
  c6_missing_input_dir_fails_before_write tCfg aCfg fsNoDir fsNoDir fsNoDir none none rfl rfl rfl

/-- C7: an alignment task line is exactly the base string, then the
`--filter_index` fragment precisely when `filter_idx` is truthy, then the
`-T --emit_dedup_slurm` fragment precisely when `two_pass` is set (in that
fixed order), then the closing quote — one fixed string per
(identifier, configuration) pair. -/
theorem c7_align_optional_flags_iff_and_order (cfg : AlignConfig) (name : String) :
    alignTask cfg name =
      alignTaskBase cfg name ++
      (if pyTruthy cfg.filter_idx then filterFlag ++ pyStr cfg.filter_idx else emptyStr) ++
      (if cfg.two_pass then twoPassFlagA ++ twoPassFlagB ++ pyStr cfg.emit_dedup else emptyStr) ++
      dquote := by
  unfold alignTask
  by_cases h1 : pyTruthy cfg.filter_idx <;> by_cases h2 : cfg.two_pass <;>
    simp [h1, h2, emptyStr, String.append_assoc, String.append_empty]

/-- C10: with `two_pass` set and `emit_dedup` left at its default `None`,
every rendered alignment task line contains the literal text
`--emit_dedup_slurm None`. -/
theorem c10_two_pass_default_renders_none_literal (cfg : AlignConfig) (name : String)
    (h1 : cfg.two_pass = true) (h2 : cfg.emit_dedup = none) :
    containsSubstr (alignTask cfg name) dedupNoneNeedle := by
  refine ⟨(if pyTruthy cfg.filter_idx then
      alignTaskBase cfg name ++ (filterFlag ++ pyStr cfg.filter_idx)
    else alignTaskBase cfg name) ++ twoPassFlagA, dquote, ?_⟩
  rw [show dedupNoneNeedle = twoPassFlagB ++ pyStr none from by decide]
  simp [alignTask, h1, h2, String.append_assoc]

theorem c10_two_pass_default_renders_none_literal_witness :
    containsSubstr (alignTask aCfg dirS1) dedupNoneNeedle :=
  c10_two_pass_default_renders_none_literal aCfg dirS1 rfl rfl


/-- C3: on a first invocation (output file absent) with a non-empty set of
work items, the `--array=0-N` bound written into the header equals the number
of task lines written into the body minus 1: for the trim script the
distinct-prefix count minus 1, for the alignment script the subdirectory
count minus 1. -/
theorem c3_first_run_header_bound_matches_body (cfgT : TrimConfig) (cfgA : AlignConfig)
    (fsT fsA : FS)
    (hT1 : fsT.inputDirExists = true) (hT2 : fsT.outputContents = none)
    (hT3 : trimSampleNames fsT ≠ [])
    (hA1 : fsA.inputDirExists = true) (hA2 : fsA.outputContents = none)
    (hA3 : fsA.inputEntries.filter (fun e => e.isDir) ≠ []) :
    trimMain cfgT none fsT =
      Outcome.ok ⟨some (trimHeader cfgT
          (((trimWriteOps cfgT (trimSampleNames fsT)).length : Int) - 1) ++
        concatAll (trimWriteOps cfgT (trimSampleNames fsT)) ++ sbatchTrailer), []⟩ ∧
    alignMain cfgA none fsA =
      Outcome.ok ⟨some (alignHeader cfgA
          (((alignWriteOps cfgA fsA.inputEntries).length : Int) - 1) ++
        concatAll (alignWriteOps cfgA fsA.inputEntries) ++ sbatchTrailer), []⟩ := by
  have eT : (trimWriteOps cfgT (trimSampleNames fsT)).length = (trimSampleNames fsT).length := by
    rw [trimWriteOps_eq_map]; simp
  have eA : (alignWriteOps cfgA fsA.inputEntries).length =
      (fsA.inputEntries.filter (fun e => e.isDir)).length := by
    rw [alignWriteOps_eq_filter_map]; simp
  constructor
  · rw [trimMain_none_ok cfgT fsT hT1]
    have hb : trimInitContents cfgT fsT ++ concatAll (trimPieces cfgT fsT) =
        trimHeader cfgT (((trimWriteOps cfgT (trimSampleNames fsT)).length : Int) - 1) ++
          concatAll (trimWriteOps cfgT (trimSampleNames fsT)) ++ sbatchTrailer := by
      simp [trimInitContents, hT2, trimNumJobs, eT, trimPieces, concatAll_append, concatAll,
        String.append_empty, String.append_assoc]
    rw [hb]
  · rw [alignMain_none_ok cfgA fsA hA1]
    have hb : alignInitContents cfgA fsA ++ concatAll (alignPieces cfgA fsA) =
        alignHeader cfgA (((alignWriteOps cfgA fsA.inputEntries).length : Int) - 1) ++
          concatAll (alignWriteOps cfgA fsA.inputEntries) ++ sbatchTrailer := by
      simp [alignInitContents, hA2, alignNumJobs, eA, alignPieces, concatAll_append, concatAll,
        String.append_empty, String.append_assoc]
    rw [hb]

theorem c3_first_run_header_bound_matches_body_witness :
    trimMain tCfg none wfsT =
      Outcome.ok ⟨some (trimHeader tCfg
          (((trimWriteOps tCfg (trimSampleNames wfsT)).length : Int) - 1) ++
        concatAll (trimWriteOps tCfg (trimSampleNames wfsT)) ++ sbatchTrailer), []⟩ ∧
    alignMain aCfg none wfsA =
      Outcome.ok ⟨some (alignHeader aCfg
          (((alignWriteOps aCfg wfsA.inputEntries).length : Int) - 1) ++
        concatAll (alignWriteOps aCfg wfsA.inputEntries) ++ sbatchTrailer), []⟩ :=
  c3_first_run_header_bound_matches_body tCfg aCfg wfsT wfsA rfl rfl (by decide) rfl rfl
    (by decide)

/-- C4 counterexample: with an existing output file, the run does not append
only the per-item task lines — the fixed dispatch trailer is appended as
well, so the final contents differ from prior-contents-plus-task-lines. -/
theorem c4_only_task_lines_appended_counterexample :
    trimMain tCfg none cfs ≠
      Outcome.ok ⟨some (preC ++ concatAll (trimWriteOps tCfg (trimSampleNames cfs))), []⟩ := by
  decide

/-- C4 (amended): when the output file already exists, its previous contents
(including the first run's header and `--array` bound) are preserved
unchanged as a prefix, and exactly the per-item task lines followed by the
fixed dispatch trailer are appended; so a second run with a different item
count leaves the stale bound while the body grows. -/
theorem c4_existing_output_header_preserved_body_appended (cfgT : TrimConfig)
    (cfgA : AlignConfig) (fsT fsA : FS) (cT cA : String)
    (hT1 : fsT.inputDirExists = true) (hT2 : fsT.outputContents = some cT)
    (hA1 : fsA.inputDirExists = true) (hA2 : fsA.outputContents = some cA) :
    trimMain cfgT none fsT =
      Outcome.ok ⟨some (cT ++ concatAll (trimWriteOps cfgT (trimSampleNames fsT)) ++
        sbatchTrailer), []⟩ ∧
    alignMain cfgA none fsA =
      Outcome.ok ⟨some (cA ++ concatAll (alignWriteOps cfgA fsA.inputEntries) ++
        sbatchTrailer), []⟩ := by
  constructor
  · rw [trimMain_none_ok cfgT fsT hT1]
    have hb : trimInitContents cfgT fsT ++ concatAll (trimPieces cfgT fsT) =
        cT ++ concatAll (trimWriteOps cfgT (trimSampleNames fsT)) ++ sbatchTrailer := by
      simp [trimInitContents, hT2, trimPieces, concatAll_append, concatAll,
        String.append_empty, String.append_assoc]
    rw [hb]
  · rw [alignMain_none_ok cfgA fsA hA1]
    have hb : alignInitContents cfgA fsA ++ concatAll (alignPieces cfgA fsA) =
        cA ++ concatAll (alignWriteOps cfgA fsA.inputEntries) ++ sbatchTrailer := by
      simp [alignInitContents, hA2, alignPieces, concatAll_append, concatAll,
        String.append_empty, String.append_assoc]
    rw [hb]

theorem c4_existing_output_header_preserved_body_appended_witness :
    trimMain tCfg none cfs =
      Outcome.ok ⟨some (preC ++ concatAll (trimWriteOps tCfg (trimSampleNames cfs)) ++
        sbatchTrailer), []⟩ ∧
    alignMain aCfg none cfsA =
      Outcome.ok ⟨some (preC ++ concatAll (alignWriteOps aCfg cfsA.inputEntries) ++
        sbatchTrailer), []⟩ :=
  c4_existing_output_header_preserved_body_appended tCfg aCfg cfs cfsA preC preC rfl rfl rfl rfl

/-- C5: the trim script derives exactly the set of distinct first-underscore
tokens of the file stems, with no duplicates; and on the end-to-end input
{S1_L001_R1.fastq.gz, S1_L001_R2.fastq.gz, S2_L001_R1.fastq.gz} the
identifiers are {S1, S2}, the array bound is 1, and exactly two task lines
are emitted, carrying `-S S1` and `-S S2` respectively. -/
theorem c5_trim_derives_distinct_prefixes :
    ((∀ fs : FS, (trimSampleNames fs).Nodup) ∧
     (∀ fs : FS, (trimSampleNames fs).toFinset =
        (((fs.inputEntries.map Entry.name).filter (fun n => strEndsWith n fastqSuffix)).map
          (fun n => firstToken (stem n))).toFinset)) ∧
    trimSampleNames fs5 = [sS1, sS2] ∧
    trimNumJobs fs5 = 1 ∧
    trimMain tCfg none fs5 =
      Outcome.ok ⟨some (trimHeader tCfg 1 ++
        (trimTask tCfg sS1 ++ (trimTask tCfg sS2 ++ sbatchTrailer))), []⟩ ∧
    containsSubstr (trimTask tCfg sS1) flagS1 ∧
    containsSubstr (trimTask tCfg sS2) flagS2 := by
  have hsn : trimSampleNames fs5 = [sS1, sS2] := by decide
  have hnj : trimNumJobs fs5 = 1 := by decide
  refine ⟨⟨fun fs => List.nodup_dedup _, fun fs => dedup_toFinset _⟩,
    hsn, hnj, ?_, ⟨pS1, dquote, by decide⟩, ⟨pS1, dquote, by decide⟩⟩
  rw [trimMain_none_ok tCfg fs5 rfl]
  have hoc : fs5.outputContents = none := rfl
  have hv2 : firstToken (stem fq2) = sS1 := by decide
  have hv3 : firstToken (stem fq3) = sS2 := by decide
  have hb : trimInitContents tCfg fs5 ++ concatAll (trimPieces tCfg fs5) =
      trimHeader tCfg 1 ++ (trimTask tCfg sS1 ++ (trimTask tCfg sS2 ++ sbatchTrailer)) := by
    simp [trimInitContents, hoc, hnj, trimPieces, hsn, trimWriteOps, concatAll,
      String.append_empty, String.append_assoc, hv2, hv3]
  rw [hb]

/-- C8: in the alignment script's discovery, only directory entries produce
task lines (non-directories are ignored), in the directory's enumeration
order, one per subdirectory; the run emits exactly those lines. -/
theorem c8_align_tasks_only_dirs_in_order (cfg : AlignConfig) (fs : FS)
    (h : fs.inputDirExists = true) :
    alignWriteOps cfg fs.inputEntries =
      (fs.inputEntries.filter (fun e => e.isDir)).map (fun e => alignTask cfg (stem e.name)) ∧
    alignMain cfg none fs =
      Outcome.ok ⟨some (alignInitContents cfg fs ++
        concatAll ((fs.inputEntries.filter (fun e => e.isDir)).map
          (fun e => alignTask cfg (stem e.name))) ++ sbatchTrailer), []⟩ := by
  refine ⟨alignWriteOps_eq_filter_map cfg fs.inputEntries, ?_⟩
  rw [alignMain_none_ok cfg fs h]
  have hb : alignInitContents cfg fs ++ concatAll (alignPieces cfg fs) =
      alignInitContents cfg fs ++
        concatAll ((fs.inputEntries.filter (fun e => e.isDir)).map
          (fun e => alignTask cfg (stem e.name))) ++ sbatchTrailer := by
    simp [alignPieces, concatAll_append, concatAll, String.append_empty,
      String.append_assoc, ← alignWriteOps_eq_filter_map]
  rw [hb]

theorem c8_align_tasks_only_dirs_in_order_witness :
    alignWriteOps aCfg wfsA2.inputEntries =
      (wfsA2.inputEntries.filter (fun e => e.isDir)).map
        (fun e => alignTask aCfg (stem e.name)) ∧
    alignMain aCfg none wfsA2 =
      Outcome.ok ⟨some (alignInitContents aCfg wfsA2 ++
        concatAll ((wfsA2.inputEntries.filter (fun e => e.isDir)).map
          (fun e => alignTask aCfg (stem e.name))) ++ sbatchTrailer), []⟩ :=
  c8_align_tasks_only_dirs_in_order aCfg wfsA2 rfl

/-- C9: if the i-th append of the try block (a task line or the trailer)
raises, the exception is re-raised to the caller after the handler logs its
diagnostic message, and the bytes already appended (the first i pieces)
remain in the output file — no rollback. -/
theorem c9_write_failure_logged_reraised_partial_kept (cfgT : TrimConfig)
    (cfgA : AlignConfig) (fsT fsA : FS) (i j : Nat)
    (hT1 : fsT.inputDirExists = true) (hTi : i < (trimPieces cfgT fsT).length)
    (hA1 : fsA.inputDirExists = true) (hAj : j < (alignPieces cfgA fsA).length) :
    trimMain cfgT (some i) fsT =
      Outcome.err PyErr.ioError ⟨some (trimInitContents cfgT fsT ++
        concatAll ((trimPieces cfgT fsT).take i)), [failMsg]⟩ ∧
    alignMain cfgA (some j) fsA =
      Outcome.err PyErr.ioError ⟨some (alignInitContents cfgA fsA ++
        concatAll ((alignPieces cfgA fsA).take j)), [failMsg]⟩ :=
  ⟨trimMain_fail_at cfgT fsT i hT1 hTi, alignMain_fail_at cfgA fsA j hA1 hAj⟩

theorem c9_write_failure_logged_reraised_partial_kept_witness :
    trimMain tCfg (some 1) wfsT =
      Outcome.err PyErr.ioError ⟨some (trimInitContents tCfg wfsT ++
        concatAll ((trimPieces tCfg wfsT).take 1)), [failMsg]⟩ ∧
    alignMain aCfg (some 1) wfsA =
      Outcome.err PyErr.ioError ⟨some (alignInitContents aCfg wfsA ++
        concatAll ((alignPieces aCfg wfsA).take 1)), [failMsg]⟩ :=
  c9_write_failure_logged_reraised_partial_kept tCfg aCfg wfsT wfsA 1 1 rfl (by decide) rfl
    (by decide)
